import Mathlib

/-!
# Keyguard message codec — shallow embedding

A shallow embedding of `src/keyguard_messages.cpp` (the Android keyguard /
gatekeeper message framing layer) together with the declarations of
`src/include/keyguard/keyguard_messages.h`, and theorems settling the frozen
claims about the codec.

Modelling conventions:

* Memory is a total function `mem : Nat → Nat` from byte offsets to byte
  values; pointers (`payload`, `end`, the moving cursor of
  `read_from_buffer`) are unbounded natural offsets into that memory.
  Pointer arithmetic therefore never wraps; in this model the original
  wraparound guard `buffer_end <= *buffer` degenerates to a test for a
  zero length field.
* `size_t` is modelled as the 32-bit type.  This is the configuration in
  which the source is self-consistent: `serialized_buffer_size` accounts
  `sizeof(uint32_t)` bytes for the length prefix while `append_to_buffer`
  and `read_from_buffer` transfer `sizeof(target->length)` bytes of it,
  and the two agree exactly when `size_t` is 4 bytes wide.  All 4-byte
  integer fields use the little-endian encoding `u32Bytes` / `readU32`.
* Every decoding function also returns the list of byte offsets it reads
  (`reads`), so that out-of-bounds accesses are visible facts about the
  model, and the list of buffer-release events it performs (`events`),
  so that the secret-wiping discipline is visible as well.
* `memset_s` is declared in `google_keyguard_utils.h`, which is not under
  `src/`.  Modelled from the spec: a call `memset_s(p, 0, n)` overwrites
  the first `n` bytes at `p` with zeros (`zeroFill`).
-/

namespace Keyguard

/-- Constant `KG_ERROR_OK` from `keyguard_messages.h`. -/
def KG_ERROR_OK : Nat := 0

/-- Constant `KG_ERROR_INVALID` from `keyguard_messages.h`. -/
def KG_ERROR_INVALID : Nat := 1

/-- Struct `SizedBuffer` from `keyguard_messages.h`: a `unique_ptr` to the backing
storage (`none` models the null pointer) and a length field.  The two members
are independent, exactly as in the source: after a move the pointer is null
while the length field keeps its old value. -/
structure SizedBuffer where
  buffer : Option (List Nat)
  length : Nat
deriving Repr, DecidableEq

/-- The all-null default state of a `SizedBuffer`, which the default
constructors of the variants establish by zeroing the struct. -/
def SizedBuffer.empty : SizedBuffer := ⟨none, 0⟩

/-- The bytes reachable through the backing pointer (`[]` for a null pointer). -/
def SizedBuffer.bytes (b : SizedBuffer) : List Nat := b.buffer.getD []

/-- Well-formedness of a `SizedBuffer` as the source maintains it: the length
field is a 32-bit value and matches the backing allocation (a null pointer
goes with length 0). -/
def SizedBuffer.wf (b : SizedBuffer) : Prop :=
  b.length < 2 ^ 32 ∧
    match b.buffer with
    | some d => d.length = b.length
    | none => b.length = 0

instance (b : SizedBuffer) : Decidable b.wf := by
  unfold SizedBuffer.wf
  cases b.buffer <;> exact inferInstance

/-- Little-endian 4-byte encoding of a 32-bit value, as `memcpy` of a
`uint32_t` produces on the (little-endian) target. -/
def u32Bytes (n : Nat) : List Nat :=
  [n % 256, n / 256 % 256, n / 65536 % 256, n / 16777216 % 256]

/-- The 32-bit value `memcpy` reconstructs from the 4 bytes at offset `p`. -/
def readU32 (mem : Nat → Nat) (p : Nat) : Nat :=
  mem p % 256 + 256 * (mem (p + 1) % 256) + 65536 * (mem (p + 2) % 256) +
    16777216 * (mem (p + 3) % 256)

/-- Memory holding the byte list `l` at offset 0 (zeros elsewhere). -/
def memOf (l : List Nat) : Nat → Nat := fun i => l.getD i 0

/-- The `n` consecutive byte offsets starting at `p` (a read trace). -/
def readRange (p n : Nat) : List Nat := (List.range n).map (p + ·)

/-- The `n` bytes of memory starting at offset `p` (what a `memcpy` of `n`
bytes from `p` copies). -/
def readBytes (mem : Nat → Nat) (p n : Nat) : List Nat :=
  (List.range n).map (fun i => mem (p + i))

/-- Function `serialized_buffer_size` from `keyguard_messages.cpp`: 4 length bytes plus
the payload. -/
def serialized_buffer_size (buf : SizedBuffer) : Nat := 4 + buf.length

/-- Function `append_to_buffer` from `keyguard_messages.cpp`, as the byte list it
appends: the 4-byte length field followed by `length` bytes copied from the
backing storage. -/
def append_to_buffer (to_append : SizedBuffer) : List Nat :=
  u32Bytes to_append.length ++ to_append.bytes

/-- Result of `read_from_buffer`: the error code, the state of `*target`, the
final cursor `*buffer`, and the trace of byte offsets read. -/
structure ReadOut where
  error : Nat
  target : SizedBuffer
  cursor : Nat
  reads : List Nat
deriving Repr, DecidableEq

/-- Function `read_from_buffer` from `keyguard_messages.cpp`.  Faithful to the source:
the first guard is `*buffer + sizeof(target->length) >= end` (note `>=`); on
its failure nothing is read and the cursor does not move.  Otherwise the
length field is copied into `target->length` and the cursor advances by 4
before the second guard `buffer_end > end || buffer_end <= *buffer` (note
`<=`; with unbounded offsets `buffer_end <= *buffer` holds exactly when the
length is 0).  On success the payload is copied into a fresh allocation of
exactly `length` bytes and the cursor advances past it. -/
def read_from_buffer (mem : Nat → Nat) (pos endPos : Nat) (target : SizedBuffer) :
    ReadOut :=
  if endPos ≤ pos + 4 then ⟨KG_ERROR_INVALID, target, pos, []⟩
  else
    let len := readU32 mem pos
    let t1 : SizedBuffer := { target with length := len }
    if pos + 4 + len > endPos ∨ pos + 4 + len ≤ pos + 4 then
      ⟨KG_ERROR_INVALID, t1, pos + 4, readRange pos 4⟩
    else
      ⟨KG_ERROR_OK, ⟨some (readBytes mem (pos + 4) len), len⟩, pos + 4 + len,
        readRange pos (4 + len)⟩

/-- The message fields a release event can concern. -/
inductive FieldId where
  | providedPassword
  | passwordHandle
  | enrolledPasswordHandle
  | verificationToken
deriving Repr, DecidableEq

/-- One release of the backing storage of a field: which field, the contents of the
buffer at the moment the storage is released, and whether a `memset_s` wipe
preceded the release. -/
structure RelEvent where
  fid : FieldId
  released : SizedBuffer
  wiped : Bool
deriving Repr, DecidableEq

/-- Modelled from the spec: `memset_s(p, 0, n)` (declared in
`google_keyguard_utils.h`, which is not under `src/`) overwrites the first `n`
bytes at `p` with zeros, leaving any further bytes of the allocation
untouched. -/
def zeroFill (d : List Nat) (n : Nat) : List Nat :=
  List.replicate n 0 ++ d.drop n

/-- Release pattern of the source for non-secret fields: if the pointer is
non-null, reset it, releasing the backing storage without wiping.  Returns
the field afterwards (null pointer, length untouched) and the release events
performed. -/
def releasePlain (fid : FieldId) (b : SizedBuffer) : SizedBuffer × List RelEvent :=
  match b.buffer with
  | some _ => (⟨none, b.length⟩, [⟨fid, b, false⟩])
  | none => (b, [])

/-- Release pattern of the source for secret fields: if the pointer is
non-null, call `memset_s` to wipe `length` bytes, then reset the pointer. -/
def releaseWipe (fid : FieldId) (b : SizedBuffer) : SizedBuffer × List RelEvent :=
  match b.buffer with
  | some d => (⟨none, b.length⟩, [⟨fid, ⟨some (zeroFill d b.length), b.length⟩, true⟩])
  | none => (b, [])

/-- The state of a `KeyguardMessage` object: the shared `error_` and
`user_id_` members plus the variant-specific fields `σ`. -/
structure KMessage (σ : Type) where
  error : Nat
  user_id : Nat
  fields : σ
deriving Repr, DecidableEq

/-- Result of the virtual `nonErrorDeserialize` of a variant: the fields afterwards, the
returned error, the offsets read, and the release events performed. -/
structure PayloadOut (σ : Type) where
  fields : σ
  error : Nat
  reads : List Nat
  events : List RelEvent
deriving Repr, DecidableEq

/-- Result of `KeyguardMessage::Deserialize`: the object state afterwards, the
returned error, the offsets read, and the release events performed. -/
structure DeserOut (σ : Type) where
  msg : KMessage σ
  ret : Nat
  reads : List Nat
  events : List RelEvent
deriving Repr, DecidableEq

/-- Method `KeyguardMessage::GetSerializedSize`, parametrised by the virtual
`nonErrorSerializedSize`. -/
def GetSerializedSize {σ : Type} (nonErrorSerializedSize : σ → Nat)
    (m : KMessage σ) : Nat :=
  if m.error = KG_ERROR_OK then 8 + nonErrorSerializedSize m.fields else 4

/-- Method `KeyguardMessage::Serialize`, parametrised by the virtual
`nonErrorSerialize`, as the byte list it writes: the 4-byte error code alone
when the error is not OK, otherwise error code, principal id, and the
payload of the variant. -/
def Serialize {σ : Type} (nonErrorSerialize : σ → List Nat)
    (m : KMessage σ) : List Nat :=
  if m.error ≠ KG_ERROR_OK then u32Bytes m.error
  else u32Bytes m.error ++ u32Bytes m.user_id ++ nonErrorSerialize m.fields

/-- Method `KeyguardMessage::Deserialize`, parametrised by the virtual
`nonErrorDeserialize`.  Faithful to the source: it requires 4 bytes for the
error code, stores the decoded 32-bit value as `error_` verbatim, and on OK
checks only `payload == end` (a single remaining byte suffices) before
reading the 4-byte `user_id_` and delegating the rest at offset `pos + 8`.
In the `payload == end` case `KG_ERROR_INVALID` is returned but `error_`
keeps the decoded OK value, exactly as in the source. -/
def Deserialize {σ : Type}
    (nonErrorDeserialize : (Nat → Nat) → Nat → Nat → σ → PayloadOut σ)
    (mem : Nat → Nat) (pos endPos : Nat) (m : KMessage σ) : DeserOut σ :=
  if pos + 4 > endPos then ⟨m, KG_ERROR_INVALID, [], []⟩
  else
    let ev := readU32 mem pos
    let m1 : KMessage σ := { m with error := ev }
    if ev = KG_ERROR_OK then
      if pos + 4 = endPos then ⟨m1, KG_ERROR_INVALID, readRange pos 4, []⟩
      else
        let uid := readU32 mem (pos + 4)
        let p := nonErrorDeserialize mem (pos + 8) endPos m1.fields
        ⟨⟨p.error, uid, p.fields⟩, p.error, readRange pos 8 ++ p.reads, p.events⟩
    else ⟨m1, ev, readRange pos 4, []⟩

/-! ## The four message variants -/

/-- Fields of `EnrollRequest` (this version declares only
`provided_password_`). -/
structure EnrollRequestFields where
  provided_password : SizedBuffer
deriving Repr, DecidableEq

/-- Fields of `EnrollResponse`. -/
structure EnrollResponseFields where
  enrolled_password_handle : SizedBuffer
deriving Repr, DecidableEq

/-- Fields of `VerifyRequest`. -/
structure VerifyRequestFields where
  password_handle : SizedBuffer
  provided_password : SizedBuffer
deriving Repr, DecidableEq

/-- Fields of `VerifyResponse`. -/
structure VerifyResponseFields where
  verification_token : SizedBuffer
deriving Repr, DecidableEq

/-- Method `EnrollRequest::nonErrorSerializedSize`. -/
def enrollRequestSize (f : EnrollRequestFields) : Nat :=
  serialized_buffer_size f.provided_password

/-- Method `EnrollRequest::nonErrorSerialize`. -/
def enrollRequestSer (f : EnrollRequestFields) : List Nat :=
  append_to_buffer f.provided_password

/-- Method `EnrollRequest::nonErrorDeserialize`: wipe-and-release any previous
password, then decode the single field. -/
def enrollRequestNonErrD (mem : Nat → Nat) (pos endPos : Nat)
    (f : EnrollRequestFields) : PayloadOut EnrollRequestFields :=
  let rel := releaseWipe .providedPassword f.provided_password
  let r := read_from_buffer mem pos endPos rel.1
  ⟨⟨r.target⟩, r.error, r.reads, rel.2⟩

/-- Method `EnrollResponse::nonErrorSerializedSize`. -/
def enrollResponseSize (f : EnrollResponseFields) : Nat :=
  serialized_buffer_size f.enrolled_password_handle

/-- Method `EnrollResponse::nonErrorSerialize`. -/
def enrollResponseSer (f : EnrollResponseFields) : List Nat :=
  append_to_buffer f.enrolled_password_handle

/-- Method `EnrollResponse::nonErrorDeserialize`: release (no wipe) any previous
handle, then decode the single field. -/
def enrollResponseNonErrD (mem : Nat → Nat) (pos endPos : Nat)
    (f : EnrollResponseFields) : PayloadOut EnrollResponseFields :=
  let rel := releasePlain .enrolledPasswordHandle f.enrolled_password_handle
  let r := read_from_buffer mem pos endPos rel.1
  ⟨⟨r.target⟩, r.error, r.reads, rel.2⟩

/-- Method `VerifyRequest::nonErrorSerializedSize`. -/
def verifyRequestSize (f : VerifyRequestFields) : Nat :=
  serialized_buffer_size f.password_handle + serialized_buffer_size f.provided_password

/-- Method `VerifyRequest::nonErrorSerialize`: handle first, then password. -/
def verifyRequestSer (f : VerifyRequestFields) : List Nat :=
  append_to_buffer f.password_handle ++ append_to_buffer f.provided_password

/-- Method `VerifyRequest::nonErrorDeserialize`: release the old handle (no wipe),
wipe-and-release the old password, decode the handle, and only on its success
decode the password. -/
def verifyRequestNonErrD (mem : Nat → Nat) (pos endPos : Nat)
    (f : VerifyRequestFields) : PayloadOut VerifyRequestFields :=
  let relH := releasePlain .passwordHandle f.password_handle
  let relP := releaseWipe .providedPassword f.provided_password
  let r1 := read_from_buffer mem pos endPos relH.1
  if r1.error ≠ KG_ERROR_OK then
    ⟨⟨r1.target, relP.1⟩, r1.error, r1.reads, relH.2 ++ relP.2⟩
  else
    let r2 := read_from_buffer mem r1.cursor endPos relP.1
    ⟨⟨r1.target, r2.target⟩, r2.error, r1.reads ++ r2.reads, relH.2 ++ relP.2⟩

/-- Method `VerifyResponse::nonErrorSerializedSize`. -/
def verifyResponseSize (f : VerifyResponseFields) : Nat :=
  serialized_buffer_size f.verification_token

/-- Method `VerifyResponse::nonErrorSerialize`. -/
def verifyResponseSer (f : VerifyResponseFields) : List Nat :=
  append_to_buffer f.verification_token

/-- Method `VerifyResponse::nonErrorDeserialize`: release (no wipe) any previous
token, then decode the single field. -/
def verifyResponseNonErrD (mem : Nat → Nat) (pos endPos : Nat)
    (f : VerifyResponseFields) : PayloadOut VerifyResponseFields :=
  let rel := releasePlain .verificationToken f.verification_token
  let r := read_from_buffer mem pos endPos rel.1
  ⟨⟨r.target⟩, r.error, r.reads, rel.2⟩

/-- Method `EnrollRequest::Deserialize`: the inherited `Deserialize`
dispatching to the `nonErrorDeserialize` of this variant. -/
def deserializeEnrollRequest : (Nat → Nat) → Nat → Nat →
    KMessage EnrollRequestFields → DeserOut EnrollRequestFields :=
  Deserialize enrollRequestNonErrD

/-- Method `EnrollResponse::Deserialize`. -/
def deserializeEnrollResponse : (Nat → Nat) → Nat → Nat →
    KMessage EnrollResponseFields → DeserOut EnrollResponseFields :=
  Deserialize enrollResponseNonErrD

/-- Method `VerifyRequest::Deserialize`. -/
def deserializeVerifyRequest : (Nat → Nat) → Nat → Nat →
    KMessage VerifyRequestFields → DeserOut VerifyRequestFields :=
  Deserialize verifyRequestNonErrD

/-- Method `VerifyResponse::Deserialize`. -/
def deserializeVerifyResponse : (Nat → Nat) → Nat → Nat →
    KMessage VerifyResponseFields → DeserOut VerifyResponseFields :=
  Deserialize verifyResponseNonErrD

/-! ## Constructors and destructors -/

/-- A default-constructed `EnrollRequest`: base constructor sets
`error_ = KG_ERROR_OK`, the variant constructor zeroes the field.
(`user_id_` is left uninitialised by the source; the model uses 0.) -/
def defaultEnrollRequest : KMessage EnrollRequestFields :=
  ⟨KG_ERROR_OK, 0, ⟨SizedBuffer.empty⟩⟩

/-- A default-constructed `EnrollResponse`. -/
def defaultEnrollResponse : KMessage EnrollResponseFields :=
  ⟨KG_ERROR_OK, 0, ⟨SizedBuffer.empty⟩⟩

/-- A default-constructed `VerifyRequest`. -/
def defaultVerifyRequest : KMessage VerifyRequestFields :=
  ⟨KG_ERROR_OK, 0, ⟨SizedBuffer.empty, SizedBuffer.empty⟩⟩

/-- A default-constructed `VerifyResponse`. -/
def defaultVerifyResponse : KMessage VerifyResponseFields :=
  ⟨KG_ERROR_OK, 0, ⟨SizedBuffer.empty⟩⟩

/-- Constructor `EnrollRequest::EnrollRequest(user_id, provided_password)`: moves the
`unique_ptr` of the source (the source pointer becomes null) and copies its
length; the length member of the source is not written.  Returns the
constructed message and the state of the source buffer after the call. -/
def enrollRequestCtor (user_id : Nat) (provided_password : SizedBuffer) :
    KMessage EnrollRequestFields × SizedBuffer :=
  (⟨KG_ERROR_OK, user_id, ⟨⟨provided_password.buffer, provided_password.length⟩⟩⟩,
    ⟨none, provided_password.length⟩)

/-- Constructor `EnrollResponse::EnrollResponse(user_id, enrolled_password_handle)`. -/
def enrollResponseCtor (user_id : Nat) (enrolled_password_handle : SizedBuffer) :
    KMessage EnrollResponseFields × SizedBuffer :=
  (⟨KG_ERROR_OK, user_id,
      ⟨⟨enrolled_password_handle.buffer, enrolled_password_handle.length⟩⟩⟩,
    ⟨none, enrolled_password_handle.length⟩)

/-- Constructor `VerifyRequest::VerifyRequest(user_id, enrolled_password_handle,
provided_password_payload)`: both sources are moved from.  Returns the
message and the states of the two sources after the call. -/
def verifyRequestCtor (user_id : Nat)
    (enrolled_password_handle provided_password_payload : SizedBuffer) :
    KMessage VerifyRequestFields × SizedBuffer × SizedBuffer :=
  (⟨KG_ERROR_OK, user_id,
      ⟨⟨enrolled_password_handle.buffer, enrolled_password_handle.length⟩,
        ⟨provided_password_payload.buffer, provided_password_payload.length⟩⟩⟩,
    ⟨none, enrolled_password_handle.length⟩,
    ⟨none, provided_password_payload.length⟩)

/-- Constructor `VerifyResponse::VerifyResponse(user_id, verification_token)`. -/
def verifyResponseCtor (user_id : Nat) (verification_token : SizedBuffer) :
    KMessage VerifyResponseFields × SizedBuffer :=
  (⟨KG_ERROR_OK, user_id,
      ⟨⟨verification_token.buffer, verification_token.length⟩⟩⟩,
    ⟨none, verification_token.length⟩)

/-- Destructor of `EnrollRequest`: wipe and release the password. -/
def enrollRequestDtor (f : EnrollRequestFields) : List RelEvent :=
  (releaseWipe .providedPassword f.provided_password).2

/-- Destructor of `EnrollResponse`: release the handle, no wipe. -/
def enrollResponseDtor (f : EnrollResponseFields) : List RelEvent :=
  (releasePlain .enrolledPasswordHandle f.enrolled_password_handle).2

/-- Destructor of `VerifyRequest`: release the handle (no wipe), wipe and
release the password. -/
def verifyRequestDtor (f : VerifyRequestFields) : List RelEvent :=
  (releasePlain .passwordHandle f.password_handle).2 ++
    (releaseWipe .providedPassword f.provided_password).2

/-- Destructor of `VerifyResponse`: the source guards on
`verification_token_.length > 0` (not on the pointer) and releases without a
wipe. -/
def verifyResponseDtor (f : VerifyResponseFields) : List RelEvent :=
  if f.verification_token.length > 0 then
    [⟨.verificationToken, f.verification_token, false⟩]
  else []

/-- Failure condition of the length-prefixed decode as claim C2 states it.
This definition follows the words of the spec, for comparison with
`read_from_buffer` as translated from the source: the decode fails exactly
when fewer than 4 bytes remain between cursor and end, or the payload end
`cursor + 4 + length` exceeds `end`; with unbounded offsets the remaining
spec case (payload end wrapping around below the cursor) cannot occur. -/
def specDecodeFailsC2 (pos endPos len : Nat) : Prop :=
  endPos < pos + 4 ∨ pos + 4 + len > endPos

instance (pos endPos len : Nat) : Decidable (specDecodeFailsC2 pos endPos len) := by
  unfold specDecodeFailsC2; exact inferInstance

/-! ## Helper lemmas -/

theorem u32Bytes_length (n : Nat) : (u32Bytes n).length = 4 := rfl

theorem append_to_buffer_length (b : SizedBuffer) (h : b.wf) :
    (append_to_buffer b).length = 4 + b.length := by
  rcases h with ⟨-, h2⟩
  unfold append_to_buffer SizedBuffer.bytes
  cases hb : b.buffer with
  | none =>
      rw [hb] at h2; simp only at h2
      simp [u32Bytes, h2]
  | some d =>
      rw [hb] at h2; simp only at h2
      simp [u32Bytes, h2]
      omega

theorem memOf_embed (pre mid rest : List Nat) (i : Nat) (h : i < mid.length) :
    memOf (pre ++ (mid ++ rest)) (pre.length + i) = mid.getD i 0 := by
  unfold memOf
  rw [List.getD_append_right _ _ _ _ (Nat.le_add_right _ _), Nat.add_sub_cancel_left,
    List.getD_append _ _ _ _ h]

theorem readU32_embed (pre rest : List Nat) (n : Nat) (h : n < 2 ^ 32) :
    readU32 (memOf (pre ++ (u32Bytes n ++ rest))) pre.length = n := by
  have e0 := memOf_embed pre (u32Bytes n) rest 0 (by simp [u32Bytes])
  have e1 := memOf_embed pre (u32Bytes n) rest 1 (by simp [u32Bytes])
  have e2 := memOf_embed pre (u32Bytes n) rest 2 (by simp [u32Bytes])
  have e3 := memOf_embed pre (u32Bytes n) rest 3 (by simp [u32Bytes])
  rw [Nat.add_zero] at e0
  unfold readU32
  rw [e0, e1, e2, e3]
  show n % 256 % 256 + 256 * (n / 256 % 256 % 256) + 65536 * (n / 65536 % 256 % 256) +
    16777216 * (n / 16777216 % 256 % 256) = n
  omega

theorem readBytes_length (mem : Nat → Nat) (p n : Nat) :
    (readBytes mem p n).length = n := by
  simp [readBytes]

theorem readBytes_embed (pre data rest : List Nat) :
    readBytes (memOf (pre ++ (data ++ rest))) pre.length data.length = data := by
  apply List.ext_getElem
  · simp [readBytes]
  · intro i h1 h2
    have hi : i < data.length := h2
    simp only [readBytes, List.getElem_map, List.getElem_range]
    rw [memOf_embed pre data rest i hi]
    exact List.getD_eq_getElem data 0 hi

/-- Decoding at the start of an embedded `append_to_buffer` encoding of a
well-formed, nonempty buffer succeeds and reconstructs the buffer exactly. -/
theorem read_from_buffer_embed (pre rest : List Nat) (b t : SizedBuffer)
    (endPos : Nat) (hwf : b.wf) (hlen : 1 ≤ b.length)
    (hend : pre.length + 4 + b.length ≤ endPos) :
    read_from_buffer (memOf (pre ++ (append_to_buffer b ++ rest))) pre.length endPos t
      = ⟨KG_ERROR_OK, b, pre.length + 4 + b.length, readRange pre.length (4 + b.length)⟩ := by
  obtain ⟨hb32, hbl⟩ := hwf
  obtain ⟨d, hd⟩ : ∃ d, b.buffer = some d := by
    cases hb : b.buffer with
    | none => rw [hb] at hbl; omega
    | some d => exact ⟨d, rfl⟩
  have hdl : d.length = b.length := by rw [hd] at hbl; exact hbl
  have hbytes : b.bytes = d := by simp [SizedBuffer.bytes, hd]
  have hassoc : pre ++ (append_to_buffer b ++ rest)
      = pre ++ (u32Bytes b.length ++ (b.bytes ++ rest)) := by
    simp [append_to_buffer, List.append_assoc]
  have hlen32 := readU32_embed pre (b.bytes ++ rest) b.length hb32
  unfold read_from_buffer
  rw [if_neg (by omega)]
  rw [hassoc, hlen32]
  rw [if_neg (by omega)]
  have hassoc2 : pre ++ (u32Bytes b.length ++ (b.bytes ++ rest))
      = (pre ++ u32Bytes b.length) ++ (b.bytes ++ rest) := by
    simp [List.append_assoc]
  have hpre2 : (pre ++ u32Bytes b.length).length = pre.length + 4 := by
    simp [u32Bytes]
  have hrb : readBytes (memOf (pre ++ (u32Bytes b.length ++ (b.bytes ++ rest))))
      (pre.length + 4) b.length = d := by
    rw [hassoc2]
    have := readBytes_embed (pre ++ u32Bytes b.length) b.bytes rest
    rw [hpre2, hbytes, hdl] at this
    rw [this.symm, hbytes]
  rw [hrb]
  have : (⟨some d, b.length⟩ : SizedBuffer) = b := by
    cases b with
    | mk buf len => simp at hd ⊢; exact hd.symm
  rw [this]

/-- Decoding a well-formed serialized OK message reaches the payload decoder:
the envelope accepts the error code and principal id and delegates at offset
8, merging the payload result exactly as the source does. -/
theorem deserialize_ok_split {σ : Type}
    (nonErrD : (Nat → Nat) → Nat → Nat → σ → PayloadOut σ)
    (uid : Nat) (payload : List Nat) (m0 : KMessage σ)
    (huid : uid < 2 ^ 32) (hpay : 1 ≤ payload.length) :
    Deserialize nonErrD (memOf (u32Bytes 0 ++ (u32Bytes uid ++ payload))) 0
        (8 + payload.length) m0
      = (let p := nonErrD (memOf (u32Bytes 0 ++ (u32Bytes uid ++ payload))) 8
            (8 + payload.length) m0.fields
         ⟨⟨p.error, uid, p.fields⟩, p.error, readRange 0 8 ++ p.reads, p.events⟩) := by
  have h0 : readU32 (memOf (u32Bytes 0 ++ (u32Bytes uid ++ payload))) 0 = 0 := by
    have := readU32_embed [] (u32Bytes uid ++ payload) 0 (by norm_num)
    simpa using this
  have h4 : readU32 (memOf (u32Bytes 0 ++ (u32Bytes uid ++ payload))) 4 = uid := by
    have := readU32_embed (u32Bytes 0) payload uid huid
    simpa [u32Bytes_length] using this
  unfold Deserialize
  rw [if_neg (by omega)]
  simp only [h0, Nat.zero_add, KG_ERROR_OK]
  rw [if_pos trivial, if_neg (show ¬(4 = 8 + payload.length) by omega), h4]

/-- Specialisation of `read_from_buffer_embed` to a buffer encoded as the
first payload field of an OK envelope (offset 8). -/
theorem read_from_buffer_at8 (uid : Nat) (b t : SizedBuffer) (rest : List Nat)
    (hwf : b.wf) (hlen : 1 ≤ b.length) (endPos : Nat) (hend : 12 + b.length ≤ endPos) :
    read_from_buffer
        (memOf (u32Bytes 0 ++ (u32Bytes uid ++ (append_to_buffer b ++ rest)))) 8 endPos t
      = ⟨KG_ERROR_OK, b, 12 + b.length, readRange 8 (4 + b.length)⟩ := by
  have h := read_from_buffer_embed (u32Bytes 0 ++ u32Bytes uid) rest b t endPos hwf hlen
    (by simp [u32Bytes]; omega)
  have hsh : (u32Bytes 0 ++ u32Bytes uid) ++ (append_to_buffer b ++ rest)
      = u32Bytes 0 ++ (u32Bytes uid ++ (append_to_buffer b ++ rest)) := by
    simp [List.append_assoc]
  have hpl : (u32Bytes 0 ++ u32Bytes uid).length = 8 := by simp [u32Bytes]
  rw [hsh, hpl] at h
  rw [h]

/-- Serialize-then-deserialize reproduces an `EnrollRequest` with an OK error,
any 32-bit principal id and a well-formed nonempty password, field for
field, from any initial object state. -/
theorem roundTrip_enrollRequest (uid : Nat) (f : EnrollRequestFields)
    (m0 : KMessage EnrollRequestFields)
    (huid : uid < 2 ^ 32) (hwf : f.provided_password.wf)
    (hlen : 1 ≤ f.provided_password.length) :
    (deserializeEnrollRequest (memOf (Serialize enrollRequestSer ⟨KG_ERROR_OK, uid, f⟩)) 0
        (Serialize enrollRequestSer ⟨KG_ERROR_OK, uid, f⟩).length m0).msg
      = ⟨KG_ERROR_OK, uid, f⟩ ∧
    (deserializeEnrollRequest (memOf (Serialize enrollRequestSer ⟨KG_ERROR_OK, uid, f⟩)) 0
        (Serialize enrollRequestSer ⟨KG_ERROR_OK, uid, f⟩).length m0).ret
      = KG_ERROR_OK := by
  have hser : Serialize enrollRequestSer ⟨KG_ERROR_OK, uid, f⟩
      = u32Bytes 0 ++ (u32Bytes uid ++ (append_to_buffer f.provided_password ++ [])) := by
    simp [Serialize, KG_ERROR_OK, enrollRequestSer]
  have hpl : (append_to_buffer f.provided_password ++ []).length
      = 4 + f.provided_password.length := by
    simp [append_to_buffer_length _ hwf]
  have hLlen : (Serialize enrollRequestSer ⟨KG_ERROR_OK, uid, f⟩).length
      = 8 + (append_to_buffer f.provided_password ++ []).length := by
    rw [hser]; simp [u32Bytes]; omega
  rw [hLlen, hser]
  rw [deserializeEnrollRequest, deserialize_ok_split _ uid _ m0 huid (by omega)]
  have hread := read_from_buffer_at8 uid f.provided_password
      ((releaseWipe .providedPassword m0.fields.provided_password).1) []
      hwf hlen (8 + (append_to_buffer f.provided_password ++ []).length) (by omega)
  simp only [enrollRequestNonErrD, hread]
  exact ⟨trivial, trivial⟩

/-- Serialize-then-deserialize reproduces an `EnrollResponse` with an OK
error, any 32-bit principal id and a well-formed nonempty handle. -/
theorem roundTrip_enrollResponse (uid : Nat) (f : EnrollResponseFields)
    (m0 : KMessage EnrollResponseFields)
    (huid : uid < 2 ^ 32) (hwf : f.enrolled_password_handle.wf)
    (hlen : 1 ≤ f.enrolled_password_handle.length) :
    (deserializeEnrollResponse (memOf (Serialize enrollResponseSer ⟨KG_ERROR_OK, uid, f⟩)) 0
        (Serialize enrollResponseSer ⟨KG_ERROR_OK, uid, f⟩).length m0).msg
      = ⟨KG_ERROR_OK, uid, f⟩ ∧
    (deserializeEnrollResponse (memOf (Serialize enrollResponseSer ⟨KG_ERROR_OK, uid, f⟩)) 0
        (Serialize enrollResponseSer ⟨KG_ERROR_OK, uid, f⟩).length m0).ret
      = KG_ERROR_OK := by
  have hser : Serialize enrollResponseSer ⟨KG_ERROR_OK, uid, f⟩
      = u32Bytes 0 ++ (u32Bytes uid ++ (append_to_buffer f.enrolled_password_handle ++ [])) := by
    simp [Serialize, KG_ERROR_OK, enrollResponseSer]
  have hpl : (append_to_buffer f.enrolled_password_handle ++ []).length
      = 4 + f.enrolled_password_handle.length := by
    simp [append_to_buffer_length _ hwf]
  have hLlen : (Serialize enrollResponseSer ⟨KG_ERROR_OK, uid, f⟩).length
      = 8 + (append_to_buffer f.enrolled_password_handle ++ []).length := by
    rw [hser]; simp [u32Bytes]; omega
  rw [hLlen, hser]
  rw [deserializeEnrollResponse, deserialize_ok_split _ uid _ m0 huid (by omega)]
  have hread := read_from_buffer_at8 uid f.enrolled_password_handle
      ((releasePlain .enrolledPasswordHandle m0.fields.enrolled_password_handle).1) []
      hwf hlen (8 + (append_to_buffer f.enrolled_password_handle ++ []).length) (by omega)
  simp only [enrollResponseNonErrD, hread]
  exact ⟨trivial, trivial⟩

/-- Serialize-then-deserialize reproduces a `VerifyResponse` with an OK error,
any 32-bit principal id and a well-formed nonempty token. -/
theorem roundTrip_verifyResponse (uid : Nat) (f : VerifyResponseFields)
    (m0 : KMessage VerifyResponseFields)
    (huid : uid < 2 ^ 32) (hwf : f.verification_token.wf)
    (hlen : 1 ≤ f.verification_token.length) :
    (deserializeVerifyResponse (memOf (Serialize verifyResponseSer ⟨KG_ERROR_OK, uid, f⟩)) 0
        (Serialize verifyResponseSer ⟨KG_ERROR_OK, uid, f⟩).length m0).msg
      = ⟨KG_ERROR_OK, uid, f⟩ ∧
    (deserializeVerifyResponse (memOf (Serialize verifyResponseSer ⟨KG_ERROR_OK, uid, f⟩)) 0
        (Serialize verifyResponseSer ⟨KG_ERROR_OK, uid, f⟩).length m0).ret
      = KG_ERROR_OK := by
  have hser : Serialize verifyResponseSer ⟨KG_ERROR_OK, uid, f⟩
      = u32Bytes 0 ++ (u32Bytes uid ++ (append_to_buffer f.verification_token ++ [])) := by
    simp [Serialize, KG_ERROR_OK, verifyResponseSer]
  have hpl : (append_to_buffer f.verification_token ++ []).length
      = 4 + f.verification_token.length := by
    simp [append_to_buffer_length _ hwf]
  have hLlen : (Serialize verifyResponseSer ⟨KG_ERROR_OK, uid, f⟩).length
      = 8 + (append_to_buffer f.verification_token ++ []).length := by
    rw [hser]; simp [u32Bytes]; omega
  rw [hLlen, hser]
  rw [deserializeVerifyResponse, deserialize_ok_split _ uid _ m0 huid (by omega)]
  have hread := read_from_buffer_at8 uid f.verification_token
      ((releasePlain .verificationToken m0.fields.verification_token).1) []
      hwf hlen (8 + (append_to_buffer f.verification_token ++ []).length) (by omega)
  simp only [verifyResponseNonErrD, hread]
  exact ⟨trivial, trivial⟩

/-- Serialize-then-deserialize reproduces a `VerifyRequest` with an OK error,
any 32-bit principal id and well-formed nonempty handle and password. -/
theorem roundTrip_verifyRequest (uid : Nat) (f : VerifyRequestFields)
    (m0 : KMessage VerifyRequestFields)
    (huid : uid < 2 ^ 32)
    (hwfH : f.password_handle.wf) (hlenH : 1 ≤ f.password_handle.length)
    (hwfP : f.provided_password.wf) (hlenP : 1 ≤ f.provided_password.length) :
    (deserializeVerifyRequest (memOf (Serialize verifyRequestSer ⟨KG_ERROR_OK, uid, f⟩)) 0
        (Serialize verifyRequestSer ⟨KG_ERROR_OK, uid, f⟩).length m0).msg
      = ⟨KG_ERROR_OK, uid, f⟩ ∧
    (deserializeVerifyRequest (memOf (Serialize verifyRequestSer ⟨KG_ERROR_OK, uid, f⟩)) 0
        (Serialize verifyRequestSer ⟨KG_ERROR_OK, uid, f⟩).length m0).ret
      = KG_ERROR_OK := by
  have hser : Serialize verifyRequestSer ⟨KG_ERROR_OK, uid, f⟩
      = u32Bytes 0 ++ (u32Bytes uid ++
          (append_to_buffer f.password_handle ++ append_to_buffer f.provided_password)) := by
    simp [Serialize, KG_ERROR_OK, verifyRequestSer]
  have hpl : (append_to_buffer f.password_handle ++ append_to_buffer f.provided_password).length
      = (4 + f.password_handle.length) + (4 + f.provided_password.length) := by
    simp [append_to_buffer_length _ hwfH, append_to_buffer_length _ hwfP]
  have hLlen : (Serialize verifyRequestSer ⟨KG_ERROR_OK, uid, f⟩).length
      = 8 + (append_to_buffer f.password_handle ++ append_to_buffer f.provided_password).length := by
    rw [hser]; simp [u32Bytes]; omega
  rw [hLlen, hser]
  rw [deserializeVerifyRequest, deserialize_ok_split _ uid _ m0 huid (by omega)]
  have hr1 := read_from_buffer_at8 uid f.password_handle
      ((releasePlain .passwordHandle m0.fields.password_handle).1)
      (append_to_buffer f.provided_password)
      hwfH hlenH
      (8 + (append_to_buffer f.password_handle ++ append_to_buffer f.provided_password).length)
      (by omega)
  have hpre2 : (u32Bytes 0 ++ (u32Bytes uid ++ append_to_buffer f.password_handle)).length
      = 12 + f.password_handle.length := by
    simp [u32Bytes, append_to_buffer_length _ hwfH]; omega
  have hr2 := read_from_buffer_embed
      (u32Bytes 0 ++ (u32Bytes uid ++ append_to_buffer f.password_handle)) []
      f.provided_password
      ((releaseWipe .providedPassword m0.fields.provided_password).1)
      (8 + (append_to_buffer f.password_handle ++ append_to_buffer f.provided_password).length)
      hwfP hlenP (by rw [hpre2]; omega)
  rw [hpre2] at hr2
  have hsh2 : (u32Bytes 0 ++ (u32Bytes uid ++ append_to_buffer f.password_handle)) ++
        (append_to_buffer f.provided_password ++ [])
      = u32Bytes 0 ++ (u32Bytes uid ++
          (append_to_buffer f.password_handle ++ append_to_buffer f.provided_password)) := by
    simp [List.append_assoc]
  rw [hsh2] at hr2
  simp only [verifyRequestNonErrD, hr1, hr2]
  norm_num [KG_ERROR_OK]

/-- Wiping with `memset_s` zeroes exactly the first `length` bytes. -/
theorem zeroFill_take (d : List Nat) (n : Nat) :
    (zeroFill d n).take n = List.replicate n 0 := by
  unfold zeroFill
  rw [List.take_left' (List.length_replicate n 0)]

/-- Every event emitted by the wipe-release pattern concerns the given field,
is marked wiped, and releases storage whose first `length` bytes are zero. -/
theorem releaseWipe_events (fid : FieldId) (b : SizedBuffer) (e : RelEvent)
    (he : e ∈ (releaseWipe fid b).2) :
    e.fid = fid ∧ e.wiped = true ∧
    e.released.bytes.take e.released.length = List.replicate e.released.length 0 := by
  unfold releaseWipe at he
  cases hb : b.buffer with
  | none => rw [hb] at he; simp at he
  | some d =>
      rw [hb] at he
      simp only [List.mem_singleton] at he
      subst he
      exact ⟨rfl, rfl, by simp [SizedBuffer.bytes, zeroFill_take]⟩

/-- Every event emitted by the plain release pattern concerns the given field
and is not wiped. -/
theorem releasePlain_events (fid : FieldId) (b : SizedBuffer) (e : RelEvent)
    (he : e ∈ (releasePlain fid b).2) :
    e.fid = fid ∧ e.wiped = false := by
  unfold releasePlain at he
  cases hb : b.buffer with
  | none => rw [hb] at he; simp at he
  | some d =>
      rw [hb] at he
      simp only [List.mem_singleton] at he
      subst he
      exact ⟨rfl, rfl⟩

/-- Present storage is actually released by the wipe-release pattern. -/
theorem releaseWipe_nonempty (fid : FieldId) (b : SizedBuffer)
    (h : b.buffer.isSome) : (releaseWipe fid b).2 ≠ [] := by
  unfold releaseWipe
  cases hb : b.buffer with
  | none => rw [hb] at h; simp at h
  | some d => simp

/-- Function `read_from_buffer` itself only ever produces the two error
values `KG_ERROR_OK` and `KG_ERROR_INVALID`. -/
theorem read_from_buffer_error_cases (mem : Nat → Nat) (pos endPos : Nat)
    (t : SizedBuffer) :
    (read_from_buffer mem pos endPos t).error = KG_ERROR_OK ∨
    (read_from_buffer mem pos endPos t).error = KG_ERROR_INVALID := by
  unfold read_from_buffer
  by_cases h1 : endPos ≤ pos + 4
  · rw [if_pos h1]; exact Or.inr rfl
  · rw [if_neg h1]
    by_cases h2 : pos + 4 + readU32 mem pos > endPos ∨ pos + 4 + readU32 mem pos ≤ pos + 4
    · rw [if_pos h2]; exact Or.inr rfl
    · rw [if_neg h2]; exact Or.inl rfl

/-- Payload decode of `EnrollRequest` returns only OK or INVALID. -/
theorem enrollRequestNonErrD_error_cases (mem : Nat → Nat) (pos endPos : Nat)
    (f : EnrollRequestFields) :
    (enrollRequestNonErrD mem pos endPos f).error = KG_ERROR_OK ∨
    (enrollRequestNonErrD mem pos endPos f).error = KG_ERROR_INVALID := by
  unfold enrollRequestNonErrD
  exact read_from_buffer_error_cases mem pos endPos _

/-- Payload decode of `EnrollResponse` returns only OK or INVALID. -/
theorem enrollResponseNonErrD_error_cases (mem : Nat → Nat) (pos endPos : Nat)
    (f : EnrollResponseFields) :
    (enrollResponseNonErrD mem pos endPos f).error = KG_ERROR_OK ∨
    (enrollResponseNonErrD mem pos endPos f).error = KG_ERROR_INVALID := by
  unfold enrollResponseNonErrD
  exact read_from_buffer_error_cases mem pos endPos _

/-- Payload decode of `VerifyResponse` returns only OK or INVALID. -/
theorem verifyResponseNonErrD_error_cases (mem : Nat → Nat) (pos endPos : Nat)
    (f : VerifyResponseFields) :
    (verifyResponseNonErrD mem pos endPos f).error = KG_ERROR_OK ∨
    (verifyResponseNonErrD mem pos endPos f).error = KG_ERROR_INVALID := by
  unfold verifyResponseNonErrD
  exact read_from_buffer_error_cases mem pos endPos _

/-- Payload decode of `VerifyRequest` returns only OK or INVALID. -/
theorem verifyRequestNonErrD_error_cases (mem : Nat → Nat) (pos endPos : Nat)
    (f : VerifyRequestFields) :
    (verifyRequestNonErrD mem pos endPos f).error = KG_ERROR_OK ∨
    (verifyRequestNonErrD mem pos endPos f).error = KG_ERROR_INVALID := by
  unfold verifyRequestNonErrD
  by_cases h : (read_from_buffer mem pos endPos
      (releasePlain .passwordHandle f.password_handle).1).error ≠ KG_ERROR_OK
  · rw [if_pos h]
    exact read_from_buffer_error_cases mem pos endPos _
  · rw [if_neg h]
    exact read_from_buffer_error_cases mem _ endPos _

/-- Errors observable through the envelope decode: the returned value is OK,
INVALID, or the verbatim 32-bit error value read from the wire, provided the
payload decoder itself returns only OK or INVALID; the stored error is one
of those or simply unchanged. -/
theorem deserialize_error_cases {σ : Type}
    (nd : (Nat → Nat) → Nat → Nat → σ → PayloadOut σ)
    (hnd : ∀ (mem : Nat → Nat) (pos endPos : Nat) (f : σ),
        (nd mem pos endPos f).error = KG_ERROR_OK ∨
        (nd mem pos endPos f).error = KG_ERROR_INVALID)
    (mem : Nat → Nat) (pos endPos : Nat) (m : KMessage σ) :
    ((Deserialize nd mem pos endPos m).ret = KG_ERROR_OK ∨
     (Deserialize nd mem pos endPos m).ret = KG_ERROR_INVALID ∨
     (Deserialize nd mem pos endPos m).ret = readU32 mem pos) ∧
    ((Deserialize nd mem pos endPos m).msg.error = KG_ERROR_OK ∨
     (Deserialize nd mem pos endPos m).msg.error = KG_ERROR_INVALID ∨
     (Deserialize nd mem pos endPos m).msg.error = readU32 mem pos ∨
     (Deserialize nd mem pos endPos m).msg.error = m.error) := by
  by_cases h1 : pos + 4 > endPos
  · simp only [Deserialize, if_pos h1]
    exact ⟨by simp, by simp⟩
  · by_cases h2 : readU32 mem pos = KG_ERROR_OK
    · by_cases h3 : pos + 4 = endPos
      · simp only [Deserialize, if_neg h1, if_pos h2, if_pos h3]
        exact ⟨by simp, by simp [h2]⟩
      · simp only [Deserialize, if_neg h1, if_pos h2, if_neg h3]
        rcases hnd mem (pos + 8) endPos m.fields with h | h
        · exact ⟨by simp [h], by simp [h]⟩
        · exact ⟨by simp [h], by simp [h]⟩
    · simp only [Deserialize, if_neg h1, if_neg h2]
      exact ⟨by simp, by simp⟩

/-! ## Claim theorems -/

/-- Claim C1.  The claim states that `KeyguardMessage::Deserialize` never
reads outside the supplied range and reads the 4-byte principal id only when
at least 4 bytes remain after the error code.  The code violates this: on the
5-byte input `[0,0,0,0,170]` (error code OK, a single trailing byte, exactly
the shape of a proper prefix of a valid serialized message truncated to 5
bytes) the decode reads offsets 0..7, of which 5, 6 and 7 lie outside the
input range `[0, 5)` — the guard before the principal-id read checks only
`payload == end`, not that 4 bytes remain. -/
theorem deserialize_reads_out_of_bounds_on_short_ok_input :
    (deserializeEnrollRequest (memOf [0, 0, 0, 0, 170]) 0 5 defaultEnrollRequest).reads
        = readRange 0 8 ∧
    ¬ (∀ i ∈ (deserializeEnrollRequest (memOf [0, 0, 0, 0, 170]) 0 5
        defaultEnrollRequest).reads, i < 5) := by
  decide

/-- Claim C2, counterexample.  On the 5-byte input `[0,0,0,0,9]` at range
`[0, 5)` the length field decodes to 0, so by the claim the decode must
succeed (5 bytes remain, the payload end 4 does not exceed 5, nothing wraps);
the code returns `KG_ERROR_INVALID`. -/
theorem read_from_buffer_rejects_claimed_accept :
    ¬ specDecodeFailsC2 0 5 (readU32 (memOf [0, 0, 0, 0, 9]) 0) ∧
    (read_from_buffer (memOf [0, 0, 0, 0, 9]) 0 5 SizedBuffer.empty).error
        = KG_ERROR_INVALID := by
  decide

/-- Claim C2, amended.  The decode fails with INVALID exactly when at most 4
bytes remain (the first guard uses greater-or-equal), or the payload end
`cursor + 4 + length` exceeds `end`, or the length field is 0 (the second
guard uses less-or-equal, which with non-wrapping offsets rejects exactly the
zero length); in every other case it succeeds, allocates a buffer of exactly
`length` bytes holding a copy of the payload, and advances the cursor past
the payload. -/
theorem read_from_buffer_invalid_characterization (mem : Nat → Nat)
    (pos endPos : Nat) (t : SizedBuffer) :
    ((read_from_buffer mem pos endPos t).error = KG_ERROR_INVALID ↔
      endPos ≤ pos + 4 ∨ endPos < pos + 4 + readU32 mem pos ∨ readU32 mem pos = 0) ∧
    ((read_from_buffer mem pos endPos t).error = KG_ERROR_OK →
      (read_from_buffer mem pos endPos t).target
          = ⟨some (readBytes mem (pos + 4) (readU32 mem pos)), readU32 mem pos⟩ ∧
      ((read_from_buffer mem pos endPos t).target).bytes.length = readU32 mem pos ∧
      (read_from_buffer mem pos endPos t).cursor = pos + 4 + readU32 mem pos) := by
  unfold read_from_buffer
  by_cases h1 : endPos ≤ pos + 4
  · rw [if_pos h1]
    refine ⟨by simp [KG_ERROR_INVALID]; omega, ?_⟩
    intro h
    simp [KG_ERROR_OK, KG_ERROR_INVALID] at h
  · rw [if_neg h1]
    by_cases h2 : pos + 4 + readU32 mem pos > endPos ∨ pos + 4 + readU32 mem pos ≤ pos + 4
    · rw [if_pos h2]
      refine ⟨by simp [KG_ERROR_INVALID]; omega, ?_⟩
      intro h
      simp [KG_ERROR_OK, KG_ERROR_INVALID] at h
    · rw [if_neg h2]
      refine ⟨by simp [KG_ERROR_OK, KG_ERROR_INVALID]; omega, ?_⟩
      intro h
      refine ⟨rfl, ?_, rfl⟩
      simp [SizedBuffer.bytes, readBytes_length]

/-- Claim C2, witness for the amended characterization at a concrete
successful decode. -/
theorem read_from_buffer_invalid_characterization_witness :
    (read_from_buffer (memOf [1, 0, 0, 0, 9]) 0 5 SizedBuffer.empty).cursor
        = 0 + 4 + readU32 (memOf [1, 0, 0, 0, 9]) 0 :=
  ((read_from_buffer_invalid_characterization (memOf [1, 0, 0, 0, 9]) 0 5
      SizedBuffer.empty).2 (by decide)).2.2

/-- Claim C3, counterexample.  Serializing an OK `EnrollRequest` whose
password field has length 0 and deserializing the bytes into a fresh
default-constructed object does not reproduce the message: the decode
returns `KG_ERROR_INVALID` (zero-length fields are rejected), so the claimed
round trip fails for buffer size 0. -/
theorem roundTrip_fails_at_zero_length_field :
    (deserializeEnrollRequest
        (memOf (Serialize enrollRequestSer ⟨KG_ERROR_OK, 7, ⟨⟨some [], 0⟩⟩⟩)) 0
        (Serialize enrollRequestSer ⟨KG_ERROR_OK, 7, ⟨⟨some [], 0⟩⟩⟩).length
        defaultEnrollRequest).ret = KG_ERROR_INVALID ∧
    ¬ ((deserializeEnrollRequest
        (memOf (Serialize enrollRequestSer ⟨KG_ERROR_OK, 7, ⟨⟨some [], 0⟩⟩⟩)) 0
        (Serialize enrollRequestSer ⟨KG_ERROR_OK, 7, ⟨⟨some [], 0⟩⟩⟩).length
        defaultEnrollRequest).msg = ⟨KG_ERROR_OK, 7, ⟨⟨some [], 0⟩⟩⟩) := by
  decide

/-- Claim C3, amended.  For every variant, every 32-bit principal id and
every well-formed buffer field of length at least 1 (the zero size of the
original claim fails, see the counterexample; sizes 1, typical and large are
all covered by the general bound), deserializing the serialized bytes into a
fresh default-constructed object reproduces the message field for field:
same OK error, same principal id, byte-identical buffers. -/
theorem roundTrip_all_variants_nonempty_buffers :
    (∀ (uid : Nat) (f : EnrollRequestFields), uid < 2 ^ 32 →
        f.provided_password.wf → 1 ≤ f.provided_password.length →
        (deserializeEnrollRequest
            (memOf (Serialize enrollRequestSer ⟨KG_ERROR_OK, uid, f⟩)) 0
            (Serialize enrollRequestSer ⟨KG_ERROR_OK, uid, f⟩).length
            defaultEnrollRequest).msg = ⟨KG_ERROR_OK, uid, f⟩ ∧
        (deserializeEnrollRequest
            (memOf (Serialize enrollRequestSer ⟨KG_ERROR_OK, uid, f⟩)) 0
            (Serialize enrollRequestSer ⟨KG_ERROR_OK, uid, f⟩).length
            defaultEnrollRequest).ret = KG_ERROR_OK) ∧
    (∀ (uid : Nat) (f : EnrollResponseFields), uid < 2 ^ 32 →
        f.enrolled_password_handle.wf → 1 ≤ f.enrolled_password_handle.length →
        (deserializeEnrollResponse
            (memOf (Serialize enrollResponseSer ⟨KG_ERROR_OK, uid, f⟩)) 0
            (Serialize enrollResponseSer ⟨KG_ERROR_OK, uid, f⟩).length
            defaultEnrollResponse).msg = ⟨KG_ERROR_OK, uid, f⟩ ∧
        (deserializeEnrollResponse
            (memOf (Serialize enrollResponseSer ⟨KG_ERROR_OK, uid, f⟩)) 0
            (Serialize enrollResponseSer ⟨KG_ERROR_OK, uid, f⟩).length
            defaultEnrollResponse).ret = KG_ERROR_OK) ∧
    (∀ (uid : Nat) (f : VerifyRequestFields), uid < 2 ^ 32 →
        f.password_handle.wf → 1 ≤ f.password_handle.length →
        f.provided_password.wf → 1 ≤ f.provided_password.length →
        (deserializeVerifyRequest
            (memOf (Serialize verifyRequestSer ⟨KG_ERROR_OK, uid, f⟩)) 0
            (Serialize verifyRequestSer ⟨KG_ERROR_OK, uid, f⟩).length
            defaultVerifyRequest).msg = ⟨KG_ERROR_OK, uid, f⟩ ∧
        (deserializeVerifyRequest
            (memOf (Serialize verifyRequestSer ⟨KG_ERROR_OK, uid, f⟩)) 0
            (Serialize verifyRequestSer ⟨KG_ERROR_OK, uid, f⟩).length
            defaultVerifyRequest).ret = KG_ERROR_OK) ∧
    (∀ (uid : Nat) (f : VerifyResponseFields), uid < 2 ^ 32 →
        f.verification_token.wf → 1 ≤ f.verification_token.length →
        (deserializeVerifyResponse
            (memOf (Serialize verifyResponseSer ⟨KG_ERROR_OK, uid, f⟩)) 0
            (Serialize verifyResponseSer ⟨KG_ERROR_OK, uid, f⟩).length
            defaultVerifyResponse).msg = ⟨KG_ERROR_OK, uid, f⟩ ∧
        (deserializeVerifyResponse
            (memOf (Serialize verifyResponseSer ⟨KG_ERROR_OK, uid, f⟩)) 0
            (Serialize verifyResponseSer ⟨KG_ERROR_OK, uid, f⟩).length
            defaultVerifyResponse).ret = KG_ERROR_OK) := by
  refine ⟨?_, ?_, ?_, ?_⟩
  · intro uid f huid hwf hlen
    exact roundTrip_enrollRequest uid f defaultEnrollRequest huid hwf hlen
  · intro uid f huid hwf hlen
    exact roundTrip_enrollResponse uid f defaultEnrollResponse huid hwf hlen
  · intro uid f huid hwfH hlenH hwfP hlenP
    exact roundTrip_verifyRequest uid f defaultVerifyRequest huid hwfH hlenH hwfP hlenP
  · intro uid f huid hwf hlen
    exact roundTrip_verifyResponse uid f defaultVerifyResponse huid hwf hlen

/-- Claim C3, witness for the amended round trip at a concrete
`EnrollRequest` with a 1-byte password. -/
theorem roundTrip_all_variants_nonempty_buffers_witness :
    (deserializeEnrollRequest
        (memOf (Serialize enrollRequestSer ⟨KG_ERROR_OK, 3, ⟨⟨some [42], 1⟩⟩⟩)) 0
        (Serialize enrollRequestSer ⟨KG_ERROR_OK, 3, ⟨⟨some [42], 1⟩⟩⟩).length
        defaultEnrollRequest).msg = ⟨KG_ERROR_OK, 3, ⟨⟨some [42], 1⟩⟩⟩ ∧
    (deserializeEnrollRequest
        (memOf (Serialize enrollRequestSer ⟨KG_ERROR_OK, 3, ⟨⟨some [42], 1⟩⟩⟩)) 0
        (Serialize enrollRequestSer ⟨KG_ERROR_OK, 3, ⟨⟨some [42], 1⟩⟩⟩).length
        defaultEnrollRequest).ret = KG_ERROR_OK :=
  roundTrip_all_variants_nonempty_buffers.1 3 ⟨⟨some [42], 1⟩⟩ (by decide) (by decide)
    (by decide)

/-- Claim C4.  Encoding an empty buffer does emit a 4-byte zero length and no
payload bytes, as claimed; but decoding that encoding does not succeed: the
decode returns `KG_ERROR_INVALID`, both at the exact 4-byte range (rejected
by the greater-or-equal remaining-bytes guard) and with trailing bytes
present (rejected by the less-or-equal payload-end guard), so an empty
buffer does not round-trip through the codec. -/
theorem empty_buffer_encoding_rejected_by_decode :
    append_to_buffer SizedBuffer.empty = [0, 0, 0, 0] ∧
    (read_from_buffer (memOf (append_to_buffer SizedBuffer.empty)) 0 4
        SizedBuffer.empty).error = KG_ERROR_INVALID ∧
    (read_from_buffer (memOf (append_to_buffer SizedBuffer.empty ++ [9, 9, 9, 9])) 0 8
        SizedBuffer.empty).error = KG_ERROR_INVALID := by
  decide

/-- Claim C5.  The payload of the `EnrollRequest` variant consists of its
buffer fields in the fixed declared order: in this version exactly the single
field `provided_password`, encoded via the length-prefixed codec (the
optional current-password fields of the spec table are not declared by this
variant, so they are never present).  The serialized form is the error code,
the principal id, then the length-prefixed password; the size accounts 8
envelope bytes plus `4 + length`; and deserializing such bytes populates
`provided_password` from the first (and only) payload field. -/
theorem enrollRequest_single_field_layout :
    (∀ (uid : Nat) (f : EnrollRequestFields),
        Serialize enrollRequestSer ⟨KG_ERROR_OK, uid, f⟩
          = u32Bytes 0 ++ (u32Bytes uid ++
              (u32Bytes f.provided_password.length ++ f.provided_password.bytes)) ∧
        GetSerializedSize enrollRequestSize ⟨KG_ERROR_OK, uid, f⟩
          = 8 + (4 + f.provided_password.length)) ∧
    (∀ (uid : Nat) (b : SizedBuffer) (m0 : KMessage EnrollRequestFields),
        uid < 2 ^ 32 → b.wf → 1 ≤ b.length →
        (deserializeEnrollRequest
            (memOf (u32Bytes 0 ++ (u32Bytes uid ++ (append_to_buffer b ++ [])))) 0
            (8 + (append_to_buffer b ++ []).length) m0).msg.fields = ⟨b⟩) := by
  constructor
  · intro uid f
    constructor
    · simp [Serialize, enrollRequestSer, append_to_buffer, KG_ERROR_OK]
    · simp [GetSerializedSize, enrollRequestSize, serialized_buffer_size, KG_ERROR_OK]
  · intro uid b m0 huid hwf hlen
    have hpl : (append_to_buffer b ++ []).length = 4 + b.length := by
      simp [append_to_buffer_length _ hwf]
    rw [deserializeEnrollRequest, deserialize_ok_split _ uid _ m0 huid (by omega)]
    have hread := read_from_buffer_at8 uid b
        ((releaseWipe .providedPassword m0.fields.provided_password).1) []
        hwf hlen (8 + (append_to_buffer b ++ []).length) (by omega)
    simp only [enrollRequestNonErrD, hread]

/-- Claim C5, witness for the decode part at a concrete 1-byte buffer. -/
theorem enrollRequest_single_field_layout_witness :
    (deserializeEnrollRequest
        (memOf (u32Bytes 0 ++ (u32Bytes 3 ++ (append_to_buffer ⟨some [9], 1⟩ ++ [])))) 0
        (8 + (append_to_buffer (⟨some [9], 1⟩ : SizedBuffer) ++ []).length)
        defaultEnrollRequest).msg.fields = ⟨⟨some [9], 1⟩⟩ :=
  enrollRequest_single_field_layout.2 3 ⟨some [9], 1⟩ defaultEnrollRequest (by decide)
    (by decide) (by decide)

/-- Claim C6.  For every message whose error is not OK, `GetSerializedSize`
returns exactly 4 and `Serialize` emits exactly the 4-byte error code and
nothing else; and for every input whose first 4 bytes decode to a non-OK
error value, `Deserialize` returns that error value and reads only the first
4 bytes, even if more are present. -/
theorem non_ok_error_short_circuit :
    (∀ (σ : Type) (nes : σ → Nat) (m : KMessage σ), m.error ≠ KG_ERROR_OK →
        GetSerializedSize nes m = 4) ∧
    (∀ (σ : Type) (ns : σ → List Nat) (m : KMessage σ), m.error ≠ KG_ERROR_OK →
        Serialize ns m = u32Bytes m.error ∧ (Serialize ns m).length = 4) ∧
    (∀ (σ : Type) (nd : (Nat → Nat) → Nat → Nat → σ → PayloadOut σ)
        (mem : Nat → Nat) (pos endPos : Nat) (m : KMessage σ),
        pos + 4 ≤ endPos → readU32 mem pos ≠ KG_ERROR_OK →
        (Deserialize nd mem pos endPos m).ret = readU32 mem pos ∧
        (Deserialize nd mem pos endPos m).reads = readRange pos 4 ∧
        ∀ i ∈ (Deserialize nd mem pos endPos m).reads, i < pos + 4) := by
  refine ⟨?_, ?_, ?_⟩
  · intro σ nes m h
    simp [GetSerializedSize, h]
  · intro σ ns m h
    exact ⟨by simp [Serialize, h], by simp [Serialize, h, u32Bytes]⟩
  · intro σ nd mem pos endPos m h1 h2
    have hd : Deserialize nd mem pos endPos m
        = ⟨{ m with error := readU32 mem pos }, readU32 mem pos, readRange pos 4, []⟩ := by
      simp only [Deserialize, if_neg (show ¬ pos + 4 > endPos by omega), if_neg h2]
    rw [hd]
    refine ⟨rfl, rfl, ?_⟩
    intro i hi
    simp only [readRange, List.mem_map, List.mem_range] at hi
    obtain ⟨j, hj, rfl⟩ := hi
    omega

/-- Claim C6, witness at a non-OK message and a 5-byte input with wire error
value 2. -/
theorem non_ok_error_short_circuit_witness :
    GetSerializedSize enrollRequestSize ⟨KG_ERROR_INVALID, 0, ⟨SizedBuffer.empty⟩⟩ = 4 ∧
    Serialize enrollRequestSer ⟨KG_ERROR_INVALID, 0, ⟨SizedBuffer.empty⟩⟩
        = u32Bytes KG_ERROR_INVALID ∧
    (Deserialize enrollRequestNonErrD (memOf [2, 0, 0, 0, 7]) 0 5
        defaultEnrollRequest).ret = readU32 (memOf [2, 0, 0, 0, 7]) 0 :=
  ⟨non_ok_error_short_circuit.1 EnrollRequestFields enrollRequestSize
      ⟨KG_ERROR_INVALID, 0, ⟨SizedBuffer.empty⟩⟩ (by decide),
   (non_ok_error_short_circuit.2.1 EnrollRequestFields enrollRequestSer
      ⟨KG_ERROR_INVALID, 0, ⟨SizedBuffer.empty⟩⟩ (by decide)).1,
   (non_ok_error_short_circuit.2.2 EnrollRequestFields enrollRequestNonErrD
      (memOf [2, 0, 0, 0, 7]) 0 5 defaultEnrollRequest (by decide) (by decide)).1⟩

/-- Claim C7.  Every release of the storage of the plaintext-password fields
(`EnrollRequest.provided_password` and `VerifyRequest.provided_password`) —
on destruction and on replacement during a subsequent decode into the same
object — is preceded by overwriting the first `length` bytes with zeros,
and such a release does occur whenever storage is present; the
password-handle and verification-token fields are released without this
mandatory wiping. -/
theorem secret_wipe_policy :
    (∀ (f : EnrollRequestFields) (e : RelEvent), e ∈ enrollRequestDtor f →
        e.fid = FieldId.providedPassword ∧ e.wiped = true ∧
        e.released.bytes.take e.released.length = List.replicate e.released.length 0) ∧
    (∀ (f : EnrollRequestFields), f.provided_password.buffer.isSome →
        enrollRequestDtor f ≠ []) ∧
    (∀ (f : VerifyRequestFields) (e : RelEvent), e ∈ verifyRequestDtor f →
        (e.fid = FieldId.providedPassword → e.wiped = true ∧
          e.released.bytes.take e.released.length = List.replicate e.released.length 0) ∧
        (e.fid = FieldId.passwordHandle → e.wiped = false)) ∧
    (∀ (f : VerifyRequestFields), f.provided_password.buffer.isSome →
        ∃ e, e ∈ verifyRequestDtor f ∧ e.fid = FieldId.providedPassword ∧
          e.wiped = true) ∧
    (∀ (mem : Nat → Nat) (pos endPos : Nat) (f : EnrollRequestFields) (e : RelEvent),
        e ∈ (enrollRequestNonErrD mem pos endPos f).events →
        e.fid = FieldId.providedPassword ∧ e.wiped = true ∧
        e.released.bytes.take e.released.length = List.replicate e.released.length 0) ∧
    (∀ (mem : Nat → Nat) (pos endPos : Nat) (f : VerifyRequestFields) (e : RelEvent),
        e ∈ (verifyRequestNonErrD mem pos endPos f).events →
        (e.fid = FieldId.providedPassword → e.wiped = true ∧
          e.released.bytes.take e.released.length = List.replicate e.released.length 0) ∧
        (e.fid = FieldId.passwordHandle → e.wiped = false)) ∧
    (∀ (f : EnrollResponseFields) (e : RelEvent), e ∈ enrollResponseDtor f →
        e.wiped = false) ∧
    (∀ (f : VerifyResponseFields) (e : RelEvent), e ∈ verifyResponseDtor f →
        e.wiped = false) ∧
    (∀ (mem : Nat → Nat) (pos endPos : Nat) (f : EnrollResponseFields) (e : RelEvent),
        e ∈ (enrollResponseNonErrD mem pos endPos f).events → e.wiped = false) ∧
    (∀ (mem : Nat → Nat) (pos endPos : Nat) (f : VerifyResponseFields) (e : RelEvent),
        e ∈ (verifyResponseNonErrD mem pos endPos f).events → e.wiped = false) := by
  refine ⟨?_, ?_, ?_, ?_, ?_, ?_, ?_, ?_, ?_, ?_⟩
  · intro f e he
    exact releaseWipe_events _ _ e he
  · intro f h
    exact releaseWipe_nonempty _ _ h
  · intro f e he
    unfold verifyRequestDtor at he
    rcases List.mem_append.1 he with h | h
    · obtain ⟨hf, hw⟩ := releasePlain_events _ _ _ h
      refine ⟨fun hc => ?_, fun _ => hw⟩
      rw [hf] at hc
      exact absurd hc (by decide)
    · obtain ⟨hf, hw, ht⟩ := releaseWipe_events _ _ _ h
      refine ⟨fun _ => ⟨hw, ht⟩, fun hc => ?_⟩
      rw [hf] at hc
      exact absurd hc (by decide)
  · intro f h
    cases hb : f.provided_password.buffer with
    | none => rw [hb] at h; simp at h
    | some d =>
        refine ⟨⟨FieldId.providedPassword,
          ⟨some (zeroFill d f.provided_password.length), f.provided_password.length⟩,
          true⟩, ?_, rfl, rfl⟩
        unfold verifyRequestDtor releaseWipe
        rw [hb]
        simp
  · intro mem pos endPos f e he
    exact releaseWipe_events _ _ e he
  · intro mem pos endPos f e he
    unfold verifyRequestNonErrD at he
    have hsplit : e ∈ (releasePlain FieldId.passwordHandle f.password_handle).2 ++
        (releaseWipe FieldId.providedPassword f.provided_password).2 := by
      by_cases hc : (read_from_buffer mem pos endPos
          (releasePlain FieldId.passwordHandle f.password_handle).1).error ≠ KG_ERROR_OK
      · rw [if_pos hc] at he; exact he
      · rw [if_neg hc] at he; exact he
    rcases List.mem_append.1 hsplit with h | h
    · obtain ⟨hf, hw⟩ := releasePlain_events _ _ _ h
      refine ⟨fun hc => ?_, fun _ => hw⟩
      rw [hf] at hc
      exact absurd hc (by decide)
    · obtain ⟨hf, hw, ht⟩ := releaseWipe_events _ _ _ h
      refine ⟨fun _ => ⟨hw, ht⟩, fun hc => ?_⟩
      rw [hf] at hc
      exact absurd hc (by decide)
  · intro f e he
    exact (releasePlain_events _ _ _ he).2
  · intro f e he
    unfold verifyResponseDtor at he
    by_cases hl : f.verification_token.length > 0
    · rw [if_pos hl] at he
      simp only [List.mem_singleton] at he
      subst he
      rfl
    · rw [if_neg hl] at he
      simp at he
  · intro mem pos endPos f e he
    exact (releasePlain_events _ _ _ he).2
  · intro mem pos endPos f e he
    exact (releasePlain_events _ _ _ he).2

/-- Claim C7, witness: the destructor of an `EnrollRequest` holding the
2-byte password `[3, 4]` emits a wiped release whose storage reads as
zeros. -/
theorem secret_wipe_policy_witness :
    (⟨FieldId.providedPassword, ⟨some [0, 0], 2⟩, true⟩ : RelEvent).fid
        = FieldId.providedPassword ∧
    (⟨FieldId.providedPassword, ⟨some [0, 0], 2⟩, true⟩ : RelEvent).wiped = true ∧
    (⟨FieldId.providedPassword, ⟨some [0, 0], 2⟩, true⟩ : RelEvent).released.bytes.take
        (⟨FieldId.providedPassword, ⟨some [0, 0], 2⟩, true⟩ : RelEvent).released.length
      = List.replicate
          (⟨FieldId.providedPassword, ⟨some [0, 0], 2⟩, true⟩ : RelEvent).released.length 0 :=
  secret_wipe_policy.1 ⟨⟨some [3, 4], 2⟩⟩
    ⟨FieldId.providedPassword, ⟨some [0, 0], 2⟩, true⟩ (by decide)

/-- Claim C8, counterexample.  Deserializing the input `[2, 0, 0, 0]` makes
the codec return, and store as the object error, the value 2, which is
neither `KG_ERROR_OK` nor `KG_ERROR_INVALID`: the decoded 32-bit wire value
is stored verbatim, so the claimed two-value taxonomy fails on adversarial
input. -/
theorem deserialize_stores_wire_error_verbatim :
    (deserializeEnrollRequest (memOf [2, 0, 0, 0]) 0 4 defaultEnrollRequest).ret = 2 ∧
    (deserializeEnrollRequest (memOf [2, 0, 0, 0]) 0 4 defaultEnrollRequest).msg.error
        = 2 ∧
    ¬ (2 = KG_ERROR_OK ∨ 2 = KG_ERROR_INVALID) := by
  decide

/-- Claim C8, amended.  For every variant and every input range, the error
returned by the decode is `KG_ERROR_OK`, `KG_ERROR_INVALID`, or the verbatim
32-bit value of the first 4 input bytes (a non-OK wire error code is echoed
unchanged, whatever its value); the stored error is likewise one of these,
or simply left unchanged when the input is shorter than 4 bytes. -/
theorem deserialize_error_value_range :
    (∀ (mem : Nat → Nat) (pos endPos : Nat) (m : KMessage EnrollRequestFields),
        ((deserializeEnrollRequest mem pos endPos m).ret = KG_ERROR_OK ∨
         (deserializeEnrollRequest mem pos endPos m).ret = KG_ERROR_INVALID ∨
         (deserializeEnrollRequest mem pos endPos m).ret = readU32 mem pos) ∧
        ((deserializeEnrollRequest mem pos endPos m).msg.error = KG_ERROR_OK ∨
         (deserializeEnrollRequest mem pos endPos m).msg.error = KG_ERROR_INVALID ∨
         (deserializeEnrollRequest mem pos endPos m).msg.error = readU32 mem pos ∨
         (deserializeEnrollRequest mem pos endPos m).msg.error = m.error)) ∧
    (∀ (mem : Nat → Nat) (pos endPos : Nat) (m : KMessage EnrollResponseFields),
        ((deserializeEnrollResponse mem pos endPos m).ret = KG_ERROR_OK ∨
         (deserializeEnrollResponse mem pos endPos m).ret = KG_ERROR_INVALID ∨
         (deserializeEnrollResponse mem pos endPos m).ret = readU32 mem pos) ∧
        ((deserializeEnrollResponse mem pos endPos m).msg.error = KG_ERROR_OK ∨
         (deserializeEnrollResponse mem pos endPos m).msg.error = KG_ERROR_INVALID ∨
         (deserializeEnrollResponse mem pos endPos m).msg.error = readU32 mem pos ∨
         (deserializeEnrollResponse mem pos endPos m).msg.error = m.error)) ∧
    (∀ (mem : Nat → Nat) (pos endPos : Nat) (m : KMessage VerifyRequestFields),
        ((deserializeVerifyRequest mem pos endPos m).ret = KG_ERROR_OK ∨
         (deserializeVerifyRequest mem pos endPos m).ret = KG_ERROR_INVALID ∨
         (deserializeVerifyRequest mem pos endPos m).ret = readU32 mem pos) ∧
        ((deserializeVerifyRequest mem pos endPos m).msg.error = KG_ERROR_OK ∨
         (deserializeVerifyRequest mem pos endPos m).msg.error = KG_ERROR_INVALID ∨
         (deserializeVerifyRequest mem pos endPos m).msg.error = readU32 mem pos ∨
         (deserializeVerifyRequest mem pos endPos m).msg.error = m.error)) ∧
    (∀ (mem : Nat → Nat) (pos endPos : Nat) (m : KMessage VerifyResponseFields),
        ((deserializeVerifyResponse mem pos endPos m).ret = KG_ERROR_OK ∨
         (deserializeVerifyResponse mem pos endPos m).ret = KG_ERROR_INVALID ∨
         (deserializeVerifyResponse mem pos endPos m).ret = readU32 mem pos) ∧
        ((deserializeVerifyResponse mem pos endPos m).msg.error = KG_ERROR_OK ∨
         (deserializeVerifyResponse mem pos endPos m).msg.error = KG_ERROR_INVALID ∨
         (deserializeVerifyResponse mem pos endPos m).msg.error = readU32 mem pos ∨
         (deserializeVerifyResponse mem pos endPos m).msg.error = m.error)) := by
  refine ⟨?_, ?_, ?_, ?_⟩
  · intro mem pos endPos m
    exact deserialize_error_cases _ enrollRequestNonErrD_error_cases mem pos endPos m
  · intro mem pos endPos m
    exact deserialize_error_cases _ enrollResponseNonErrD_error_cases mem pos endPos m
  · intro mem pos endPos m
    exact deserialize_error_cases _ verifyRequestNonErrD_error_cases mem pos endPos m
  · intro mem pos endPos m
    exact deserialize_error_cases _ verifyResponseNonErrD_error_cases mem pos endPos m

/-- Claim C9, counterexample.  The `EnrollRequest` constructor moves the
buffer out of its source but does not write the length member of the source:
after constructing from a 3-byte password, the source still reports length
3, not the claimed empty state. -/
theorem ctor_source_keeps_length :
    ((enrollRequestCtor 5 ⟨some [1, 2, 3], 3⟩).2).buffer = none ∧
    ((enrollRequestCtor 5 ⟨some [1, 2, 3], 3⟩).2).length = 3 ∧
    ¬ ((enrollRequestCtor 5 ⟨some [1, 2, 3], 3⟩).2 = SizedBuffer.empty) := by
  decide

/-- Claim C9, amended.  After each variant constructor taking `SizedBuffer`
arguments, the storage of every source is moved into the message field (the
source pointer becomes null and the field holds the original pointer and
length), but the length member of the source retains its previous value
rather than being reset to 0. -/
theorem ctor_move_semantics :
    (∀ (uid : Nat) (src : SizedBuffer),
        (enrollRequestCtor uid src).1
            = ⟨KG_ERROR_OK, uid, ⟨⟨src.buffer, src.length⟩⟩⟩ ∧
        (enrollRequestCtor uid src).2 = ⟨none, src.length⟩) ∧
    (∀ (uid : Nat) (src : SizedBuffer),
        (enrollResponseCtor uid src).1
            = ⟨KG_ERROR_OK, uid, ⟨⟨src.buffer, src.length⟩⟩⟩ ∧
        (enrollResponseCtor uid src).2 = ⟨none, src.length⟩) ∧
    (∀ (uid : Nat) (handle password : SizedBuffer),
        (verifyRequestCtor uid handle password).1
            = ⟨KG_ERROR_OK, uid,
                ⟨⟨handle.buffer, handle.length⟩, ⟨password.buffer, password.length⟩⟩⟩ ∧
        (verifyRequestCtor uid handle password).2.1 = ⟨none, handle.length⟩ ∧
        (verifyRequestCtor uid handle password).2.2 = ⟨none, password.length⟩) ∧
    (∀ (uid : Nat) (src : SizedBuffer),
        (verifyResponseCtor uid src).1
            = ⟨KG_ERROR_OK, uid, ⟨⟨src.buffer, src.length⟩⟩⟩ ∧
        (verifyResponseCtor uid src).2 = ⟨none, src.length⟩) := by
  refine ⟨?_, ?_, ?_, ?_⟩
  · intro uid src
    exact ⟨rfl, rfl⟩
  · intro uid src
    exact ⟨rfl, rfl⟩
  · intro uid handle password
    exact ⟨rfl, rfl, rfl⟩
  · intro uid src
    exact ⟨rfl, rfl⟩

/-- Claim C10.  For every message object and every input whose first 4 bytes
decode to a non-OK error value, deserializing changes only the stored error
(to that value): the principal id and all variant fields keep exactly the
values they held before the call, and no field storage is released. -/
theorem deserialize_non_ok_frame (σ : Type)
    (nd : (Nat → Nat) → Nat → Nat → σ → PayloadOut σ)
    (mem : Nat → Nat) (pos endPos : Nat) (m : KMessage σ)
    (h1 : pos + 4 ≤ endPos) (h2 : readU32 mem pos ≠ KG_ERROR_OK) :
    (Deserialize nd mem pos endPos m).msg.user_id = m.user_id ∧
    (Deserialize nd mem pos endPos m).msg.fields = m.fields ∧
    (Deserialize nd mem pos endPos m).msg.error = readU32 mem pos ∧
    (Deserialize nd mem pos endPos m).events = [] := by
  have hd : Deserialize nd mem pos endPos m
      = ⟨{ m with error := readU32 mem pos }, readU32 mem pos, readRange pos 4, []⟩ := by
    simp only [Deserialize, if_neg (show ¬ pos + 4 > endPos by omega), if_neg h2]
  rw [hd]
  exact ⟨rfl, rfl, rfl, rfl⟩

/-- Claim C10, witness at a 4-byte input with wire error value 2 and a fresh
`EnrollRequest`. -/
theorem deserialize_non_ok_frame_witness :
    (Deserialize enrollRequestNonErrD (memOf [2, 0, 0, 0]) 0 4
        defaultEnrollRequest).msg.user_id = defaultEnrollRequest.user_id ∧
    (Deserialize enrollRequestNonErrD (memOf [2, 0, 0, 0]) 0 4
        defaultEnrollRequest).msg.fields = defaultEnrollRequest.fields ∧
    (Deserialize enrollRequestNonErrD (memOf [2, 0, 0, 0]) 0 4
        defaultEnrollRequest).msg.error = readU32 (memOf [2, 0, 0, 0]) 0 ∧
    (Deserialize enrollRequestNonErrD (memOf [2, 0, 0, 0]) 0 4
        defaultEnrollRequest).events = [] :=
  deserialize_non_ok_frame EnrollRequestFields enrollRequestNonErrD (memOf [2, 0, 0, 0])
    0 4 defaultEnrollRequest (by decide) (by decide)

end Keyguard
